import Mathlib

/-!
Shallow embedding of the cinematic-framing training core
(`src/training/cinematic_env.py`, `src/training/canvas.py`,
`src/training/env_reward.py`, `src/training/bc_dataset.py`).

Real-valued program quantities are modelled over `ℚ` (the reward terms,
which use `exp`/`sqrt`, over `ℝ`).  NumPy/Python float NaN and infinity
have no rational counterpart; in this model every value is finite, so the
`np.nan_to_num` sanitisation step is the identity and is noted where it
occurs in the source.  Randomness is modelled by passing the sampled
values explicitly.
-/

namespace VCam

/-- `np.clip(x, lo, hi) = min(max(x, lo), hi)`. -/
def clip (x lo hi : ℚ) : ℚ := min (max x lo) hi

/-- `_clamp(val, lo, hi) = max(lo, min(hi, val))` from `canvas.py`. -/
def clampQ (v lo hi : ℚ) : ℚ := max lo (min hi v)

/-- `_clamp(val)` with the default bounds 0, 1 from `canvas.py`. -/
def clamp01 (v : ℚ) : ℚ := clampQ v 0 1

/-- Python `round` to an integer: round-half-to-even (banker's rounding). -/
def roundHalfEven (q : ℚ) : ℤ :=
  let f := ⌊q⌋
  let frac := q - f
  if frac < 1/2 then f
  else if 1/2 < frac then f + 1
  else if 2 ∣ f then f else f + 1

/-- Python `round(x, 6)`: round to 6 decimal digits. -/
def round6 (q : ℚ) : ℚ := (roundHalfEven (q * 1000000) : ℚ) / 1000000

/-- `MAX_PAN_SPEED = 0.02` (`cinematic_env.py`). -/
def MAX_PAN_SPEED : ℚ := 2/100

/-- `MAX_TILT_SPEED = 0.02` (`cinematic_env.py`). -/
def MAX_TILT_SPEED : ℚ := 2/100

/-- `MAX_ZOOM_SPEED = 0.05` (`cinematic_env.py`). -/
def MAX_ZOOM_SPEED : ℚ := 5/100

/-- `MAX_ZOOM = 4.0` (`cinematic_env.py`). -/
def MAX_ZOOM : ℚ := 4

/-- `ASPECT_RATIO = 16.0 / 9.0` (`cinematic_env.py`); renamed `ASPECT` here. -/
def ASPECT : ℚ := 16/9

/-- The engine's crop/zoom state: `_crop_x`, `_crop_y`, `_crop_w`,
`_crop_h`, `_zoom` of `CinematicFramingEnv`. -/
structure CropState where
  x : ℚ
  y : ℚ
  w : ℚ
  h : ℚ
  zoom : ℚ
deriving DecidableEq

/-- A 3-component action `(pan, tilt, zoom)`. -/
structure Action where
  pan : ℚ
  tilt : ℚ
  zoom : ℚ
deriving DecidableEq

/-- `np.clip(action, -1.0, 1.0)` performed at the top of
`CinematicFramingEnv.step`. -/
def clipAction (a : Action) : Action :=
  ⟨clip a.pan (-1) 1, clip a.tilt (-1) 1, clip a.zoom (-1) 1⟩

/-- `CinematicFramingEnv._apply_action` (`cinematic_env.py` lines 215-240),
acting on an explicit crop state. -/
def applyAction (s : CropState) (a : Action) : CropState :=
  let dx := a.pan * MAX_PAN_SPEED
  let dy := a.tilt * MAX_TILT_SPEED
  let dz := a.zoom * MAX_ZOOM_SPEED
  let zoom1 := clip (s.zoom + dz) 1 MAX_ZOOM
  let h1 := 1 / zoom1
  let w1 := h1 * ASPECT
  if 1 < w1 then
    let w2 : ℚ := 1
    let h2 := w2 / ASPECT
    let zoom2 := 1 / h2
    ⟨clip (s.x + dx) 0 (1 - w2), clip (s.y + dy) 0 (1 - h2), w2, h2, zoom2⟩
  else
    ⟨clip (s.x + dx) 0 (1 - w1), clip (s.y + dy) 0 (1 - h1), w1, h1, zoom1⟩

/-- The crop-state part of `CinematicFramingEnv.step`: clip the incoming
action to `[-1,1]^3`, then `_apply_action`. -/
def stepCrop (s : CropState) (a : Action) : CropState :=
  applyAction s (clipAction a)

/-- `ExpertDataset._extract_pairs` action derivation
(`bc_dataset.py` lines 116-120): the expert action moving crop `c0`
towards crop `c1`. -/
def deriveAction (c0 c1 : CropState) : Action :=
  ⟨clip ((c1.x - c0.x) / MAX_PAN_SPEED) (-1) 1,
   clip ((c1.y - c0.y) / MAX_TILT_SPEED) (-1) 1,
   clip ((c1.zoom - c0.zoom) / MAX_ZOOM_SPEED) (-1) 1⟩

/-- Crop validity exactly as worded in the round-trip claim: clamped to the
canvas, `w = h * 16/9` or `w = 1`, `zoom = 1/h` within `[16/9, 4]`. -/
def ValidCropClaim (c : CropState) : Prop :=
  0 ≤ c.x ∧ c.x + c.w ≤ 1 ∧ 0 ≤ c.y ∧ c.y + c.h ≤ 1 ∧
  (c.w = c.h * ASPECT ∨ c.w = 1) ∧
  c.zoom = 1 / c.h ∧ 16/9 ≤ c.zoom ∧ c.zoom ≤ 4

/-- Crop validity with the aspect kept exact: `w = h * 16/9` (at the lower
zoom bound `16/9` this already gives `w = 1`, the clamped case). -/
def ValidCropAR (c : CropState) : Prop :=
  0 ≤ c.x ∧ c.x + c.w ≤ 1 ∧ 0 ≤ c.y ∧ c.y + c.h ≤ 1 ∧
  c.w = c.h * ASPECT ∧
  c.zoom = 1 / c.h ∧ 16/9 ≤ c.zoom ∧ c.zoom ≤ 4

instance (c : CropState) : Decidable (ValidCropClaim c) := by
  unfold ValidCropClaim; infer_instance

instance (c : CropState) : Decidable (ValidCropAR c) := by
  unfold ValidCropAR; infer_instance

/-- `DetectionResult` (`detector.py`): per-frame person detection in
source space.  All numeric fields are rationals in this model. -/
structure Detection where
  has_person : Bool
  bbox : Option (ℚ × ℚ × ℚ × ℚ)
  center : Option (ℚ × ℚ)
  bbox_height : Option ℚ
  confidence : Option ℚ
  head : Option (ℚ × ℚ)
  waist : Option (ℚ × ℚ)
  pose_confidence : Option ℚ
deriving DecidableEq

/-- `CanvasState` (`canvas.py`): persistent per-video canvas state. -/
structure CanvasState where
  zoom : ℚ
  crop_h : ℚ
  crop_w : ℚ
  canvas_anchor_x : ℚ
  canvas_anchor_y : ℚ
  first_frame_sx : ℚ
  first_frame_sy : ℚ
deriving DecidableEq

/-- `CropData` (`schema.py`). -/
structure CropData where
  x : ℚ
  y : ℚ
  w : ℚ
  h : ℚ
  zoom : ℚ
deriving DecidableEq

/-- `IdealCropData` (`schema.py`). -/
structure IdealCropData where
  x : ℚ
  y : ℚ
  w : ℚ
  h : ℚ
  zoom : ℚ
  source : String
deriving DecidableEq

/-- `SpeakerData` (`schema.py`). -/
structure SpeakerData where
  x : ℚ
  y : ℚ
  z : ℚ
  bbox : List ℚ
  confidence : ℚ
deriving DecidableEq

/-- `KeypointData` (`schema.py`). -/
structure KeypointData where
  head_x : ℚ
  head_y : ℚ
  waist_x : ℚ
  waist_y : ℚ
  pose_confidence : ℚ
deriving DecidableEq

/-- `CanvasEmbedding` (`canvas.py`): the result of embedding one frame. -/
structure CanvasEmbedding where
  speaker : Option SpeakerData
  keypoints : Option KeypointData
  crop : CropData
  ideal_crop : IdealCropData
  state : CanvasState
deriving DecidableEq

/-- `_flip_y` (`canvas.py`). -/
def flipY (y : ℚ) : ℚ := 1 - y

/-- `initialize_canvas` (`canvas.py` lines 58-91), with the two random
draws passed explicitly: `rT` is `rng.uniform(0.12, 0.22)` (the target
canvas bbox height) and `rAx`, `rAy` are the anchor draws.  Python's
`detection.bbox_height or 0.3` treats both `None` and `0.0` as missing. -/
def initCanvas (d : Detection) (rT rAx rAy : ℚ)
    (zoomLo zoomHi aspect : ℚ) : CanvasState :=
  let bh := match d.bbox_height with
    | none => 3/10
    | some v => if v = 0 then 3/10 else v
  let zoom := clip (bh / rT) zoomLo zoomHi
  let crop_h := 1 / zoom
  let crop_w := crop_h * aspect
  let crop_w2 := if 1 < crop_w then 1 else crop_w
  let crop_h2 := if 1 < crop_w then crop_w2 / aspect else crop_h
  let c := d.center.getD (1/2, 1/2)
  ⟨zoom, crop_h2, crop_w2, rAx, rAy, c.1, c.2⟩

/-- `_compute_crop_position` (`canvas.py` lines 235-267). -/
def computeCropPosition (d : Detection) (s : CanvasState) : ℚ × ℚ :=
  match d.has_person, d.center with
  | true, some c =>
    let delta_sx := c.1 - s.first_frame_sx
    let delta_sy := c.2 - s.first_frame_sy
    let canvas_speaker_x := s.canvas_anchor_x + delta_sx * s.crop_w
    let canvas_speaker_y := s.canvas_anchor_y + delta_sy * s.crop_h
    let crop_x := canvas_speaker_x - c.1 * s.crop_w
    let crop_y := canvas_speaker_y - c.2 * s.crop_h
    (clampQ crop_x 0 (1 - s.crop_w), clampQ crop_y 0 (1 - s.crop_h))
  | _, _ => ((1 - s.crop_w) / 2, (1 - s.crop_h) / 2)

/-- `embed_in_canvas` (`canvas.py` lines 94-232).  The random draws
`rT`, `rAx`, `rAy` are only consumed when the canvas is initialised on
this call. -/
def embedInCanvas (d : Detection) (st0 : Option CanvasState)
    (rT rAx rAy : ℚ) (zoomLo zoomHi aspect : ℚ) : CanvasEmbedding :=
  let st := if st0.isNone && d.has_person then
      some (initCanvas d rT rAx rAy zoomLo zoomHi aspect)
    else st0
  match st with
  | none =>
    -- no person detected yet: centered default crop, temporary state
    let dch := 1 / ((zoomLo + zoomHi) / 2)
    let dcw := min 1 (dch * aspect)
    let dch2 := if 1 ≤ dcw then dcw / aspect else dch
    let crop_x_mp := (1 - dcw) / 2
    let crop_y_mp := (1 - dch2) / 2
    let zoom := 1 / dch2
    let crop : CropData :=
      ⟨round6 crop_x_mp, round6 (flipY (crop_y_mp + dch2)),
       round6 dcw, round6 dch2, round6 zoom⟩
    { speaker := none, keypoints := none, crop := crop,
      ideal_crop := ⟨crop.x, crop.y, crop.w, crop.h, crop.zoom, "youtube"⟩,
      state := ⟨zoom, dch2, dcw, 1/2, 1/2, 1/2, 1/2⟩ }
  | some s =>
    let pos := computeCropPosition d s
    let crop_x_mp := pos.1
    let crop_y_mp := pos.2
    let speaker : Option SpeakerData :=
      if d.has_person then
        match d.bbox with
        | some b =>
          let canvas_bx := crop_x_mp + b.1 * s.crop_w
          let canvas_by := crop_y_mp + b.2.1 * s.crop_h
          let canvas_bw := b.2.2.1 * s.crop_w
          let canvas_bh := b.2.2.2 * s.crop_h
          let cx_mp := canvas_bx + canvas_bw / 2
          let cy_mp := canvas_by + canvas_bh / 2
          some ⟨round6 (clamp01 cx_mp), round6 (clamp01 (flipY cy_mp)),
                round6 (if 1/100 < canvas_bh then 1 / canvas_bh else 0),
                [round6 (clamp01 canvas_bx),
                 round6 (clamp01 (flipY (canvas_by + canvas_bh))),
                 round6 canvas_bw, round6 canvas_bh],
                round6 (d.confidence.getD 0)⟩
        | none => none
      else none
    let keypoints : Option KeypointData :=
      if d.has_person then
        match d.head, d.waist with
        | some hd, some wa =>
          some ⟨round6 (clamp01 (crop_x_mp + hd.1 * s.crop_w)),
                round6 (clamp01 (flipY (crop_y_mp + hd.2 * s.crop_h))),
                round6 (clamp01 (crop_x_mp + wa.1 * s.crop_w)),
                round6 (clamp01 (flipY (crop_y_mp + wa.2 * s.crop_h))),
                round6 (d.pose_confidence.getD 0)⟩
        | _, _ => none
      else none
    let zoom := if 1/100 < s.crop_h then 1 / s.crop_h else 1
    let crop : CropData :=
      ⟨round6 (clamp01 crop_x_mp),
       round6 (clamp01 (flipY (crop_y_mp + s.crop_h))),
       round6 s.crop_w, round6 s.crop_h, round6 zoom⟩
    { speaker := speaker, keypoints := keypoints, crop := crop,
      ideal_crop := ⟨crop.x, crop.y, crop.w, crop.h, crop.zoom, "youtube"⟩,
      state := s }

/-- Embed a whole sequence of frames, threading the canvas state as the
caller of `embed_in_canvas` does across the frames of one video. -/
def embedSeq (s : CanvasState) (ds : List (Detection × ℚ × ℚ × ℚ))
    (zoomLo zoomHi aspect : ℚ) : List CanvasEmbedding × CanvasState :=
  match ds with
  | [] => ([], s)
  | (d, rT, rAx, rAy) :: rest =>
    let emb := embedInCanvas d (some s) rT rAx rAy zoomLo zoomHi aspect
    let tail := embedSeq emb.state rest zoomLo zoomHi aspect
    (emb :: tail.1, tail.2)

/-- The `speaker` sub-record of a session frame (`x`, `y`, `z` are the
fields read by the environment). -/
structure SpeakerRec where
  x : ℚ
  y : ℚ
  z : ℚ
deriving DecidableEq

/-- The `keypoints` sub-record of a session frame. -/
structure KeypointsRec where
  head_x : ℚ
  head_y : ℚ
  waist_x : ℚ
  waist_y : ℚ
  pose_confidence : ℚ
deriving DecidableEq

/-- The `current_crop` sub-record of a session frame; every field is
optional because the environment reads it with `crop.get(key, default)`. -/
structure CropFields where
  x : Option ℚ
  y : Option ℚ
  w : Option ℚ
  h : Option ℚ
  zoom : Option ℚ
deriving DecidableEq

/-- One session frame record as consumed by `CinematicFramingEnv`
(`speaker`, `keypoints` and `current_crop` may each be absent). -/
structure FrameRec where
  speaker : Option SpeakerRec
  keypoints : Option KeypointsRec
  current_crop : Option CropFields
deriving DecidableEq

/-- The frame used when indexing past the list (never reached by the
code for well-formed indices). -/
def defFrame : FrameRec := ⟨none, none, none⟩

/-- Mutable episode state of `CinematicFramingEnv`: the loaded slice,
fps, frame pointer, crop state and histories. -/
structure EngineState where
  frames : List FrameRec
  fps : ℚ
  stepIdx : ℕ
  crop : CropState
  prevAction : Option Action
  prevPrevAction : Option Action
  prevSpeaker : Option (ℚ × ℚ)
deriving DecidableEq

/-- Crop initialisation in `CinematicFramingEnv.reset` (lines 120-127):
each field is copied from the record with a per-field default. -/
def resetCropState (c : Option CropFields) : CropState :=
  match c with
  | none => ⟨0, 0, 1, 1, 1⟩
  | some c => ⟨c.x.getD 0, c.y.getD 0, c.w.getD 1, c.h.getD 1, c.zoom.getD 1⟩

/-- `CinematicFramingEnv._build_observation` (lines 242-299) as the
18-element observation list.  In this rational model every value is
finite, so the final `np.nan_to_num(obs, nan=0, posinf=1, neginf=-1)` is
the identity. -/
def buildObservation (f : FrameRec) (c : CropState) (velx vely : ℚ) :
    List ℚ :=
  let hasPerson : ℚ := if f.speaker.isSome then 1 else 0
  let spx := match f.speaker with | some s => s.x | none => 0
  let spy := match f.speaker with | some s => s.y | none => 0
  let spz := match f.speaker with | some s => min (s.z / 10) 1 | none => 0
  let headx := match f.keypoints with | some k => k.head_x | none => 0
  let heady := match f.keypoints with | some k => k.head_y | none => 0
  let waistx := match f.keypoints with | some k => k.waist_x | none => 0
  let waisty := match f.keypoints with | some k => k.waist_y | none => 0
  let poseConf := match f.keypoints with
    | some k => k.pose_confidence | none => 0
  let zoomNorm := min (c.zoom / MAX_ZOOM) 1
  let headRel := if 1/100 < c.h ∧ f.speaker.isSome then
      clip ((heady - c.y) / c.h) 0 1 else 0
  let waistRel := if 1/100 < c.h ∧ f.speaker.isSome then
      clip ((waisty - c.y) / c.h) 0 1 else 0
  [hasPerson, spx, spy, spz, headx, heady, waistx, waisty,
   c.x, c.y, c.w, c.h, zoomNorm, velx, vely, headRel, waistRel, poseConf]

/-- The `low` bounds of the observation space (`cinematic_env.py`
lines 66-69). -/
def obsLow : List ℚ := [0, 0, 0, 0, 0, 0, 0, 0, 0, 0, 0, 0, 0, -1, -1, 0, 0, 0]

/-- The `high` bounds of the observation space (`cinematic_env.py`
lines 70-73). -/
def obsHigh : List ℚ := [1, 1, 1, 1, 1, 1, 1, 1, 1, 1, 1, 1, 1, 1, 1, 1, 1, 1]

/-- Speaker velocity computed inside `CinematicFramingEnv.step`
(lines 163-171), as a function of the pre-step engine state: the frame
pointer is advanced (and clamped at the end of the slice), then the new
frame's speaker is compared with the stored previous speaker position. -/
def stepVelocity (e : EngineState) : ℚ × ℚ :=
  let idx1 := e.stepIdx + 1
  let idx2 := if e.frames.length ≤ idx1 then e.frames.length - 1 else idx1
  match (e.frames.getD idx2 defFrame).speaker, e.prevSpeaker with
  | some s, some p =>
    (clip ((s.x - p.1) * e.fps) (-1) 1, clip ((s.y - p.2) * e.fps) (-1) 1)
  | _, _ => (0, 0)

/-- `updSeen acc f` is the update the environment performs on its stored
previous speaker position when it visits frame `f` (lines 203-205). -/
def updSeen (acc : Option (ℚ × ℚ)) (f : FrameRec) : Option (ℚ × ℚ) :=
  match f.speaker with
  | some s => some (s.x, s.y)
  | none => acc

/-- The most recently seen speaker position in a list of frames (`init`
is the value before any of them was visited). -/
def lastSeen (init : Option (ℚ × ℚ)) (fs : List FrameRec) : Option (ℚ × ℚ) :=
  fs.foldl updSeen init

/-- The speaker velocity restated declaratively: the stored previous
speaker position is replaced by the most recently seen speaker among the
frames visited so far (`e.frames.take (e.stepIdx + 1)`). -/
def specVelocity (e : EngineState) : ℚ × ℚ :=
  let idx1 := e.stepIdx + 1
  let idx2 := if e.frames.length ≤ idx1 then e.frames.length - 1 else idx1
  match (e.frames.getD idx2 defFrame).speaker,
      lastSeen none (e.frames.take (e.stepIdx + 1)) with
  | some s, some p =>
    (clip ((s.x - p.1) * e.fps) (-1) 1, clip ((s.y - p.2) * e.fps) (-1) 1)
  | _, _ => (0, 0)

/-- Result of one `CinematicFramingEnv.step` call (the reward, which has
no effect on the state, is modelled separately over `ℝ`). -/
structure StepResult where
  state : EngineState
  obs : List ℚ
  terminated : Bool
  truncated : Bool

/-- `CinematicFramingEnv.step` (lines 149-213): clip the action, apply it
to the crop, advance (and clamp) the frame pointer, compute the speaker
velocity, build the observation, and shift the action/speaker history.
`terminated` is the literal `False` returned at line 212. -/
def stepEngine (e : EngineState) (a0 : Action) : StepResult :=
  let a := clipAction a0
  let crop1 := applyAction e.crop a
  let idx1 := e.stepIdx + 1
  let trunc : Bool := decide (e.frames.length ≤ idx1)
  let idx2 := if e.frames.length ≤ idx1 then e.frames.length - 1 else idx1
  let frame := e.frames.getD idx2 defFrame
  let vel := stepVelocity e
  let obs := buildObservation frame crop1 vel.1 vel.2
  { state :=
      { e with crop := crop1, stepIdx := idx2,
               prevAction := some a, prevPrevAction := e.prevAction,
               prevSpeaker := updSeen e.prevSpeaker frame },
    obs := obs, terminated := false, truncated := trunc }

/-- `CinematicFramingEnv.reset` (lines 95-147) after the random
session/slice sampling: the sampled slice `frames` and its session `fps`
are given; the crop is initialised from the first frame's recorded
`current_crop` and the histories are cleared. -/
def resetEngine (frames : List FrameRec) (fps : ℚ) :
    EngineState × List ℚ :=
  let first := frames.getD 0 defFrame
  let crop := resetCropState first.current_crop
  let e : EngineState :=
    ⟨frames, fps, 0, crop, none, none,
     first.speaker.map (fun s => (s.x, s.y))⟩
  (e, buildObservation first crop 0 0)

/-- Run a sequence of `step` calls from a state. -/
def runSteps (e : EngineState) (as : List Action) : EngineState :=
  as.foldl (fun e a => (stepEngine e a).state) e

/-- `framing_reward` (`env_reward.py` lines 19-43), over `ℝ` because of
the Gaussian shaping. -/
noncomputable def framing_reward (head_y waist_y crop_y crop_h : ℝ)
    (has_person : Bool) : ℝ :=
  if has_person = false ∨ crop_h < 1/100 then 0
  else
    let head_rel := (head_y - crop_y) / crop_h
    let waist_rel := (waist_y - crop_y) / crop_h
    let error := (|head_rel - 667/1000| + |waist_rel - 333/1000|) / 2
    Real.exp (-(error ^ 2) / (2 * (1/10) ^ 2))

/-- `jitter_penalty` (`env_reward.py` lines 46-62); the three arguments
are the 3-component actions, `None` when no history exists yet. -/
noncomputable def jitter_penalty
    (action prev_action prev_prev_action : Option (ℝ × ℝ × ℝ)) : ℝ :=
  match action, prev_action, prev_prev_action with
  | some a, some p, some q =>
    let j1 := (a.1 - p.1) - (p.1 - q.1)
    let j2 := (a.2.1 - p.2.1) - (p.2.1 - q.2.1)
    let j3 := (a.2.2 - p.2.2) - (p.2.2 - q.2.2)
    let jerk := Real.sqrt (j1 ^ 2 + j2 ^ 2 + j3 ^ 2)
    let pen := -(1/2) * min (jerk / 1) 1
    pen
  | _, _, _ => 0

/-- `head_cutoff_penalty` (`env_reward.py` lines 65-89). -/
noncomputable def head_cutoff_penalty (head_y crop_y crop_h : ℝ)
    (has_person : Bool) : ℝ :=
  if has_person = false ∨ crop_h < 1/100 then 0
  else
    let head_rel := (head_y - crop_y) / crop_h
    if 1 < head_rel ∨ head_rel < 0 then -1
    else if min head_rel (1 - head_rel) < 1/20 then -(1/2)
    else 0

/-- `rule_of_thirds_bonus` (`env_reward.py` lines 92-114). -/
noncomputable def rule_of_thirds_bonus (speaker_x crop_x crop_w : ℝ)
    (has_person : Bool) : ℝ :=
  if has_person = false ∨ crop_w < 1/100 then 0
  else
    let rel := (speaker_x - crop_x) / crop_w
    let mind := min |rel - 333/1000| |rel - 667/1000|
    (2/10) * Real.exp (-(mind ^ 2) / (2 * (1/20) ^ 2))

/-- `anticipation_bonus` (`env_reward.py` lines 117-145). -/
noncomputable def anticipation_bonus (adx ady vx vy : ℝ)
    (has_person : Bool) : ℝ :=
  if has_person = false then 0
  else
    let speed := Real.sqrt (vx ^ 2 + vy ^ 2)
    if speed < 1/100 then 0
    else
      let move_norm := Real.sqrt (adx ^ 2 + ady ^ 2)
      if move_norm < 1/100000000 then 0
      else (1/10) * max 0 ((adx * vx + ady * vy) / (move_norm * speed))

/-- `compute_reward` (`env_reward.py` lines 148-177): the five terms
summed and clipped with `np.clip(r, -2.0, 1.5)`. -/
noncomputable def compute_reward (has_person : Bool)
    (head_y waist_y speaker_x crop_x crop_y crop_w crop_h : ℝ)
    (action prev_action prev_prev_action : Option (ℝ × ℝ × ℝ))
    (velocity_x velocity_y : ℝ) : ℝ :=
  let r := framing_reward head_y waist_y crop_y crop_h has_person
    + jitter_penalty action prev_action prev_prev_action
    + head_cutoff_penalty head_y crop_y crop_h has_person
    + rule_of_thirds_bonus speaker_x crop_x crop_w has_person
    + anticipation_bonus (match action with | some a => a.1 | none => 0)
        (match action with | some a => a.2.1 | none => 0)
        velocity_x velocity_y has_person
  min (max r (-2)) (3/2)

-- Basic facts about `clip`.

theorem clip_le (x lo hi : ℚ) : clip x lo hi ≤ hi := min_le_right _ _

theorem le_clip (x lo hi : ℚ) (h : lo ≤ hi) : lo ≤ clip x lo hi :=
  le_min (le_max_right _ _) h

theorem clip_eq_self (x lo hi : ℚ) (h1 : lo ≤ x) (h2 : x ≤ hi) :
    clip x lo hi = x := by
  unfold clip
  rw [max_eq_left h1, min_eq_left h2]

-- Shared facts about `applyAction`.

theorem applyAction_props (s : CropState) (a : Action) :
    0 ≤ (applyAction s a).x ∧ 0 ≤ (applyAction s a).y ∧
    (applyAction s a).x + (applyAction s a).w ≤ 1 ∧
    (applyAction s a).y + (applyAction s a).h ≤ 1 ∧
    (applyAction s a).w = (applyAction s a).h * ASPECT ∧
    16/9 ≤ (applyAction s a).zoom ∧ (applyAction s a).zoom ≤ 4 := by
  have h1le : (1:ℚ) ≤ clip (s.zoom + a.zoom * MAX_ZOOM_SPEED) 1 MAX_ZOOM :=
    le_clip _ _ _ (by norm_num [MAX_ZOOM])
  have h4 : clip (s.zoom + a.zoom * MAX_ZOOM_SPEED) 1 MAX_ZOOM ≤ 4 := by
    have h := clip_le (s.zoom + a.zoom * MAX_ZOOM_SPEED) 1 MAX_ZOOM
    simpa [MAX_ZOOM] using h
  have hzpos : (0:ℚ) < clip (s.zoom + a.zoom * MAX_ZOOM_SPEED) 1 MAX_ZOOM := by
    linarith
  unfold applyAction
  dsimp only
  split_ifs with hw
  · dsimp only
    have hx := clip_le (s.x + a.pan * MAX_PAN_SPEED) 0 (1 - 1)
    have hy := clip_le (s.y + a.tilt * MAX_TILT_SPEED) 0 (1 - 1/ASPECT)
    refine ⟨le_clip _ _ _ (by norm_num), le_clip _ _ _ (by norm_num [ASPECT]),
      by linarith, ?_, by norm_num [ASPECT], by norm_num [ASPECT],
      by norm_num [ASPECT]⟩
    have hA : (1:ℚ)/ASPECT = 9/16 := by norm_num [ASPECT]
    rw [hA] at hy ⊢
    linarith
  · dsimp only
    have hwle : 1 / clip (s.zoom + a.zoom * MAX_ZOOM_SPEED) 1 MAX_ZOOM * ASPECT ≤ 1 :=
      not_lt.mp hw
    have hhle : 1 / clip (s.zoom + a.zoom * MAX_ZOOM_SPEED) 1 MAX_ZOOM ≤ 1 := by
      rw [div_le_one hzpos]; exact h1le
    have hzlo : 16/9 ≤ clip (s.zoom + a.zoom * MAX_ZOOM_SPEED) 1 MAX_ZOOM := by
      have h9 : 1 / clip (s.zoom + a.zoom * MAX_ZOOM_SPEED) 1 MAX_ZOOM ≤ 9/16 := by
        rw [ASPECT] at hwle
        linarith
      rw [div_le_iff hzpos] at h9
      linarith
    have hx := clip_le (s.x + a.pan * MAX_PAN_SPEED) 0
      (1 - 1 / clip (s.zoom + a.zoom * MAX_ZOOM_SPEED) 1 MAX_ZOOM * ASPECT)
    have hy := clip_le (s.y + a.tilt * MAX_TILT_SPEED) 0
      (1 - 1 / clip (s.zoom + a.zoom * MAX_ZOOM_SPEED) 1 MAX_ZOOM)
    exact ⟨le_clip _ _ _ (by linarith), le_clip _ _ _ (by linarith),
      by linarith, by linarith, rfl, hzlo, h4⟩

theorem applyAction_zoom_clamped (s : CropState) (a : Action)
    (h : clip (s.zoom + a.zoom * MAX_ZOOM_SPEED) 1 MAX_ZOOM < 16/9) :
    (applyAction s a).w = 1 ∧ (applyAction s a).h = 9/16 ∧
    (applyAction s a).zoom = 16/9 := by
  have hzpos : (0:ℚ) < clip (s.zoom + a.zoom * MAX_ZOOM_SPEED) 1 MAX_ZOOM := by
    have := le_clip (s.zoom + a.zoom * MAX_ZOOM_SPEED) 1 MAX_ZOOM
      (by norm_num [MAX_ZOOM])
    linarith
  have hcond : 1 < 1 / clip (s.zoom + a.zoom * MAX_ZOOM_SPEED) 1 MAX_ZOOM * ASPECT := by
    rw [ASPECT, div_mul_eq_mul_div, lt_div_iff hzpos]
    linarith
  unfold applyAction
  dsimp only
  rw [if_pos hcond]
  norm_num [ASPECT]

/-- C3: for every action vector (even out-of-range, since `step` clamps it
to `[-1,1]^3`) and every prior crop state, after `EpisodeEngine.step`
applies the action the resulting crop satisfies `x ≥ 0`, `y ≥ 0`,
`x + w ≤ 1` and `y + h ≤ 1`. -/
theorem c3_step_crop_in_canvas (e : EngineState) (a : Action) :
    0 ≤ (stepEngine e a).state.crop.x ∧ 0 ≤ (stepEngine e a).state.crop.y ∧
    (stepEngine e a).state.crop.x + (stepEngine e a).state.crop.w ≤ 1 ∧
    (stepEngine e a).state.crop.y + (stepEngine e a).state.crop.h ≤ 1 := by
  have h : (stepEngine e a).state.crop = applyAction e.crop (clipAction a) := rfl
  rw [h]
  obtain ⟨h1, h2, h3, h4, _, _, _⟩ := applyAction_props e.crop (clipAction a)
  exact ⟨h1, h2, h3, h4⟩

/-- C4 counterexample: `reset` copies the first record's `current_crop`
verbatim, so with a record whose crop has `zoom = 10` and `w = h = 1/10`
(internally consistent: `zoom = 1/h`, all coordinates in `[0,1]`) the
episode starts with a zoom outside `[1, 4]` and a non-16:9, non-clamped
aspect, refuting the claim for the reset point of an episode. -/
theorem c4_reset_cex :
    ((resetEngine [⟨none, none,
        some ⟨some 0, some 0, some (1/10), some (1/10), some 10⟩⟩] 30).1.crop.zoom
      = 10) ∧
    ¬((resetEngine [⟨none, none,
        some ⟨some 0, some 0, some (1/10), some (1/10), some 10⟩⟩] 30).1.crop.zoom ≤ 4) ∧
    ¬((resetEngine [⟨none, none,
        some ⟨some 0, some 0, some (1/10), some (1/10), some 10⟩⟩] 30).1.crop.w
        = (resetEngine [⟨none, none,
            some ⟨some 0, some 0, some (1/10), some (1/10), some 10⟩⟩] 30).1.crop.h
          * ASPECT ∨
      (resetEngine [⟨none, none,
        some ⟨some 0, some 0, some (1/10), some (1/10), some 10⟩⟩] 30).1.crop.w = 1) := by
  have hcrop : (resetEngine [⟨none, none,
      some ⟨some 0, some 0, some (1/10), some (1/10), some 10⟩⟩] 30).1.crop
      = ⟨0, 0, 1/10, 1/10, 10⟩ := rfl
  rw [hcrop]
  norm_num [ASPECT]

/-- C4 (amended): after every `step`, for any prior crop state and any
action, the zoom lies in `[1, 4]` and the crop keeps `w = h * 16/9`
exactly (in the clamped case `w = 1` and `h = 9/16`, which also satisfies
this equation); at `reset` the crop is copied verbatim from the first
record, so there the invariant holds only if the recorded crop already
satisfies it. -/
theorem c4_step_zoom_aspect (e : EngineState) (a : Action) :
    1 ≤ (stepEngine e a).state.crop.zoom ∧
    (stepEngine e a).state.crop.zoom ≤ 4 ∧
    ((stepEngine e a).state.crop.w = (stepEngine e a).state.crop.h * ASPECT ∨
      (stepEngine e a).state.crop.w = 1) := by
  have h : (stepEngine e a).state.crop = applyAction e.crop (clipAction a) := rfl
  rw [h]
  obtain ⟨_, _, _, _, hw, hlo, hhi⟩ := applyAction_props e.crop (clipAction a)
  exact ⟨by linarith, hhi, Or.inl hw⟩

/-- C10: after any `step`, the effective zoom is at least `16/9`: whenever
the clipped zoom update lands below `16/9` the crop width would exceed 1
and the aspect clamp resets `w = 1`, `h = 9/16`, `zoom = 16/9` exactly;
hence the post-step zoom always lies in `[16/9, 4]` and the nominal lower
clamp of `1.0` is never attained. -/
theorem c10_zoom_floor (e : EngineState) (a : Action) :
    16/9 ≤ (stepEngine e a).state.crop.zoom ∧
    (stepEngine e a).state.crop.zoom ≤ 4 ∧
    (clip (e.crop.zoom + (clipAction a).zoom * MAX_ZOOM_SPEED) 1 MAX_ZOOM < 16/9 →
      (stepEngine e a).state.crop.w = 1 ∧
      (stepEngine e a).state.crop.h = 9/16 ∧
      (stepEngine e a).state.crop.zoom = 16/9) := by
  have h : (stepEngine e a).state.crop = applyAction e.crop (clipAction a) := rfl
  rw [h]
  obtain ⟨_, _, _, _, _, hlo, hhi⟩ := applyAction_props e.crop (clipAction a)
  exact ⟨hlo, hhi, fun hlow => applyAction_zoom_clamped e.crop (clipAction a) hlow⟩

/-- C10 witness: at zoom 1 with a maximal zoom-out action the clamp
branch is taken and the post-step zoom is exactly `16/9`. -/
theorem c10_zoom_floor_wit :
    (stepEngine ⟨[], 30, 0, ⟨0, 0, 1, 1, 1⟩, none, none, none⟩
        ⟨0, 0, -1⟩).state.crop.zoom = 16/9 :=
  (c10_zoom_floor ⟨[], 30, 0, ⟨0, 0, 1, 1, 1⟩, none, none, none⟩
    ⟨0, 0, -1⟩).2.2
    (by norm_num [clip, clipAction, MAX_ZOOM_SPEED, MAX_ZOOM, min_def, max_def])
    |>.2.2

/-- C9: `step` always returns `terminated = false`; `truncated` is
signalled exactly when the advanced frame pointer reaches the end of the
sampled slice, in which case the pointer is clamped to the last index
(otherwise it advances by one); no failure condition ends an episode. -/
theorem c9_truncation_only (e : EngineState) (a : Action) :
    (stepEngine e a).terminated = false ∧
    ((stepEngine e a).truncated = true ↔ e.frames.length ≤ e.stepIdx + 1) ∧
    (stepEngine e a).state.stepIdx =
      (if e.frames.length ≤ e.stepIdx + 1 then e.frames.length - 1
       else e.stepIdx + 1) := by
  refine ⟨rfl, ?_, rfl⟩
  simp [stepEngine]

/-- C9 witness: on a two-frame slice, the first step does not truncate
and moves the pointer to index 1. -/
theorem c9_truncation_only_wit :
    (stepEngine ⟨[defFrame, defFrame], 30, 0, ⟨0, 0, 1, 1, 1⟩, none, none, none⟩
        ⟨0, 0, 0⟩).truncated = false :=
  by
  have h := c9_truncation_only
    ⟨[defFrame, defFrame], 30, 0, ⟨0, 0, 1, 1, 1⟩, none, none, none⟩ ⟨0, 0, 0⟩
  have h2 := h.2.1
  by_contra hc
  rw [Bool.not_eq_false] at hc
  have := h2.mp hc
  simp at this

/-- C6: `compute_reward` always returns a value in `[-2, 1.5]` (over the
real numbers the value is finite by construction; the Python `np.clip`
at the end enforces the range for arbitrary inputs, action histories and
velocities). -/
theorem c6_reward_bounded (hp : Bool)
    (hy wy sx cx cy cw ch vx vy : ℝ) (a pa ppa : Option (ℝ × ℝ × ℝ)) :
    -2 ≤ compute_reward hp hy wy sx cx cy cw ch a pa ppa vx vy ∧
    compute_reward hp hy wy sx cx cy cw ch a pa ppa vx vy ≤ 3/2 := by
  unfold compute_reward
  refine ⟨le_min (le_max_right _ _) (by norm_num), min_le_right _ _⟩

-- Shared facts about `embedInCanvas` with an existing canvas state.

theorem embed_some_state (d : Detection) (s : CanvasState)
    (rT rAx rAy zoomLo zoomHi aspect : ℚ) :
    (embedInCanvas d (some s) rT rAx rAy zoomLo zoomHi aspect).state = s := rfl

theorem embed_some_crop_w (d : Detection) (s : CanvasState)
    (rT rAx rAy zoomLo zoomHi aspect : ℚ) :
    (embedInCanvas d (some s) rT rAx rAy zoomLo zoomHi aspect).crop.w
      = round6 s.crop_w := rfl

theorem embed_some_crop_h (d : Detection) (s : CanvasState)
    (rT rAx rAy zoomLo zoomHi aspect : ℚ) :
    (embedInCanvas d (some s) rT rAx rAy zoomLo zoomHi aspect).crop.h
      = round6 s.crop_h := rfl

theorem embed_some_crop_zoom (d : Detection) (s : CanvasState)
    (rT rAx rAy zoomLo zoomHi aspect : ℚ) :
    (embedInCanvas d (some s) rT rAx rAy zoomLo zoomHi aspect).crop.zoom
      = round6 (if 1/100 < s.crop_h then 1 / s.crop_h else 1) := rfl

/-- C2 (zoom lock): once a canvas state exists, every later `embed` call
returns that state unchanged (so `zoom`, `crop_w`, `crop_h`, the anchors
and the first-frame reference never change for the rest of the video),
and every crop it emits has the same `w`, `h` and `zoom`, which are
functions of the locked state only — across any sequence of detections
and random draws, only the crop origin varies. -/
theorem c2_zoom_lock (s : CanvasState) (ds : List (Detection × ℚ × ℚ × ℚ))
    (zoomLo zoomHi aspect : ℚ) :
    (embedSeq s ds zoomLo zoomHi aspect).2 = s ∧
    ∀ emb ∈ (embedSeq s ds zoomLo zoomHi aspect).1,
      emb.state = s ∧ emb.crop.w = round6 s.crop_w ∧
      emb.crop.h = round6 s.crop_h ∧
      emb.crop.zoom = round6 (if 1/100 < s.crop_h then 1 / s.crop_h else 1) := by
  induction ds with
  | nil => exact ⟨rfl, by intro emb h; cases h⟩
  | cons hd tl ih =>
    obtain ⟨d, rT, rAx, rAy⟩ := hd
    constructor
    · exact ih.1
    · intro emb hmem
      rcases List.mem_cons.mp hmem with h | h
      · subst h
        exact ⟨embed_some_state d s rT rAx rAy zoomLo zoomHi aspect,
          embed_some_crop_w d s rT rAx rAy zoomLo zoomHi aspect,
          embed_some_crop_h d s rT rAx rAy zoomLo zoomHi aspect,
          embed_some_crop_zoom d s rT rAx rAy zoomLo zoomHi aspect⟩
      · exact ih.2 emb h

/-- C8 counterexample: `initialize_canvas` called with a detection that
lacks both the bounding-box height and the center does not fail: it
produces a full `CanvasState` from the fallbacks `bh = 0.3` and
`center = (0.5, 0.5)` (here with target occupancy draw `0.17`, anchor
draws `(0.5, 0.4)` and the default zoom range and aspect ratio). -/
theorem c8_missing_geometry_cex :
    initCanvas ⟨true, none, none, none, none, none, none, none⟩
        (17/100) (1/2) (2/5) (3/2) 3 (16/9)
      = ⟨30/17, 9/16, 1, 1/2, 2/5, 1/2, 1/2⟩ := by
  unfold initCanvas
  norm_num [clip, min_def, max_def]

/-- C8 (amended): canvas initialisation with missing geometry inputs is
not an error: a missing bounding-box height falls back to `0.3` and a
missing center to `(0.5, 0.5)`, and the computation proceeds exactly as
if those values had been supplied. -/
theorem c8_fallback_defaults (hp : Bool) (bb : Option (ℚ × ℚ × ℚ × ℚ))
    (conf : Option ℚ) (hd wa : Option (ℚ × ℚ)) (pc : Option ℚ)
    (rT rAx rAy zoomLo zoomHi aspect : ℚ) :
    initCanvas ⟨hp, bb, none, none, conf, hd, wa, pc⟩
        rT rAx rAy zoomLo zoomHi aspect
      = initCanvas ⟨hp, bb, some (1/2, 1/2), some (3/10), conf, hd, wa, pc⟩
        rT rAx rAy zoomLo zoomHi aspect := by
  unfold initCanvas
  norm_num

/-- C1 counterexample: the crop `(x, y, w, h, zoom) = (0, 0, 1, 1/2, 2)`
satisfies the claim's validity condition through its `w = 1` disjunct and
has zero per-axis differences from itself, yet applying the derived
(zero) action from it re-derives `w = h * 16/9 = 8/9 ≠ 1`: the width is
not reproduced (the error `1/9` far exceeds any speed-constant
tolerance). -/
theorem c1_roundtrip_cex :
    ValidCropClaim ⟨0, 0, 1, 1/2, 2⟩ ∧
    |(0:ℚ) - 0| ≤ MAX_PAN_SPEED ∧ |(0:ℚ) - 0| ≤ MAX_TILT_SPEED ∧
    |(2:ℚ) - 2| ≤ MAX_ZOOM_SPEED ∧
    (applyAction ⟨0, 0, 1, 1/2, 2⟩
        (deriveAction ⟨0, 0, 1, 1/2, 2⟩ ⟨0, 0, 1, 1/2, 2⟩)).w = 8/9 := by
  refine ⟨?_, ?_, ?_, ?_, ?_⟩
  · unfold ValidCropClaim ASPECT
    norm_num
  · norm_num [MAX_PAN_SPEED]
  · norm_num [MAX_TILT_SPEED]
  · norm_num [MAX_ZOOM_SPEED]
  · unfold applyAction deriveAction
    norm_num [clip, min_def, max_def, MAX_PAN_SPEED, MAX_TILT_SPEED,
      MAX_ZOOM_SPEED, MAX_ZOOM, ASPECT]

/-- C1 (amended): restrict validity to the aspect-consistent form
`w = h * 16/9` (at `zoom = 16/9` this already gives the clamped `w = 1`;
the claim's free-standing `w = 1` disjunct is dropped).  Then for two
consecutive valid crops whose per-axis differences are within the
per-step speed limits, the action derived by `ExpertDataset` applied via
`_apply_action` from the first crop reproduces the second crop exactly
(no tolerance needed). -/
theorem c1_roundtrip_exact (c0 c1 : CropState)
    (h0 : ValidCropAR c0) (h1 : ValidCropAR c1)
    (hx : |c1.x - c0.x| ≤ MAX_PAN_SPEED)
    (hy : |c1.y - c0.y| ≤ MAX_TILT_SPEED)
    (hz : |c1.zoom - c0.zoom| ≤ MAX_ZOOM_SPEED) :
    applyAction c0 (deriveAction c0 c1) = c1 := by
  obtain ⟨x1, y1, w1, h1, z1⟩ := c1
  obtain ⟨h1x, h1xw, h1y, h1yh, h1w, h1z, h1lo, h1hi⟩ := h1
  obtain ⟨h0x, h0xw, h0y, h0yh, h0w, h0z, h0lo, h0hi⟩ := h0
  dsimp only at h1x h1xw h1y h1yh h1w h1z h1lo h1hi hx hy hz
  rw [abs_le] at hx hy hz
  have hMP : (0:ℚ) < MAX_PAN_SPEED := by norm_num [MAX_PAN_SPEED]
  have hMT : (0:ℚ) < MAX_TILT_SPEED := by norm_num [MAX_TILT_SPEED]
  have hMZ : (0:ℚ) < MAX_ZOOM_SPEED := by norm_num [MAX_ZOOM_SPEED]
  have hh1 : h1 ≠ 0 := by
    intro hc
    rw [hc] at h1z
    norm_num at h1z
    rw [h1z] at h1lo
    norm_num at h1lo
  have hda : deriveAction c0 ⟨x1, y1, w1, h1, z1⟩
      = ⟨(x1 - c0.x) / MAX_PAN_SPEED, (y1 - c0.y) / MAX_TILT_SPEED,
         (z1 - c0.zoom) / MAX_ZOOM_SPEED⟩ := by
    unfold deriveAction
    dsimp only
    rw [clip_eq_self _ _ _ (by rw [le_div_iff₀ hMP]; linarith)
          (by rw [div_le_one hMP]; linarith),
        clip_eq_self _ _ _ (by rw [le_div_iff₀ hMT]; linarith)
          (by rw [div_le_one hMT]; linarith),
        clip_eq_self _ _ _ (by rw [le_div_iff₀ hMZ]; linarith)
          (by rw [div_le_one hMZ]; linarith)]
  rw [hda]
  unfold applyAction
  dsimp only
  rw [div_mul_cancel₀ _ (ne_of_gt hMP), div_mul_cancel₀ _ (ne_of_gt hMT),
      div_mul_cancel₀ _ (ne_of_gt hMZ)]
  have hzp : c0.zoom + (z1 - c0.zoom) = z1 := by ring
  rw [hzp]
  have hclipz : clip z1 1 MAX_ZOOM = z1 :=
    clip_eq_self _ _ _ (by linarith)
      (by norm_num [MAX_ZOOM]; linarith)
  rw [hclipz]
  have hinv : 1 / z1 = h1 := by
    rw [h1z, one_div_one_div]
  rw [hinv]
  have hw1 : h1 * ASPECT = w1 := h1w.symm
  rw [hw1]
  have hwle : w1 ≤ 1 := by linarith
  rw [if_neg (by linarith : ¬ (1:ℚ) < w1)]
  have hxe : c0.x + (x1 - c0.x) = x1 := by ring
  have hye : c0.y + (y1 - c0.y) = y1 := by ring
  rw [hxe, hye,
      clip_eq_self _ _ _ h1x (by linarith),
      clip_eq_self _ _ _ h1y (by linarith)]

/-- C1 witness: a concrete aspect-consistent crop pair (here equal crops
at zoom 2) satisfies every hypothesis and round-trips exactly. -/
theorem c1_roundtrip_exact_wit :
    ValidCropAR ⟨0, 0, 8/9, 1/2, 2⟩ ∧
    applyAction ⟨0, 0, 8/9, 1/2, 2⟩
        (deriveAction ⟨0, 0, 8/9, 1/2, 2⟩ ⟨0, 0, 8/9, 1/2, 2⟩)
      = ⟨0, 0, 8/9, 1/2, 2⟩ := by
  have hv : ValidCropAR ⟨0, 0, 8/9, 1/2, 2⟩ := by
    unfold ValidCropAR ASPECT
    norm_num
  refine ⟨hv, c1_roundtrip_exact _ _ hv hv ?_ ?_ ?_⟩
  · norm_num [MAX_PAN_SPEED]
  · norm_num [MAX_TILT_SPEED]
  · norm_num [MAX_ZOOM_SPEED]

-- Facts connecting the engine's stored previous speaker position with a
-- declarative recomputation over the visited frames.

theorem lastSeen_append (init : Option (ℚ × ℚ)) (l1 l2 : List FrameRec) :
    lastSeen init (l1 ++ l2) = lastSeen (lastSeen init l1) l2 :=
  List.foldl_append _ _ _ _

theorem updSeen_idem (acc : Option (ℚ × ℚ)) (f : FrameRec) :
    updSeen (updSeen acc f) f = updSeen acc f := by
  unfold updSeen
  cases f.speaker <;> rfl

theorem updSeen_last (init : Option (ℚ × ℚ)) (l : List FrameRec) :
    updSeen (lastSeen init l) (l.getD (l.length - 1) defFrame)
      = lastSeen init l := by
  induction l using List.reverseRecOn with
  | nil => rfl
  | append_singleton xs x ih =>
    rw [lastSeen_append]
    have hgd : (xs ++ [x]).getD ((xs ++ [x]).length - 1) defFrame = x := by
      simp [List.getD_eq_getElem?_getD, List.getElem?_append_right]
    rw [hgd]
    exact updSeen_idem _ _

/-- The engine's stored previous speaker position always equals the most
recently seen speaker among the visited frames (the prefix up to and
including the current frame pointer). -/
def SeenInv (e : EngineState) : Prop :=
  e.prevSpeaker = lastSeen none (e.frames.take (e.stepIdx + 1))

theorem seenInv_reset (frames : List FrameRec) (fps : ℚ) :
    SeenInv (resetEngine frames fps).1 := by
  unfold SeenInv resetEngine
  dsimp only
  cases frames with
  | nil => rfl
  | cons f l =>
    show (f.speaker.map fun s => (s.x, s.y)) = lastSeen none ((f :: l).take 1)
    cases hs : f.speaker <;> simp [lastSeen, updSeen, hs, List.take]

theorem seenInv_step (e : EngineState) (a : Action) (h : SeenInv e) :
    SeenInv (stepEngine e a).state := by
  unfold SeenInv at h ⊢
  show updSeen e.prevSpeaker
      (e.frames.getD
        (if e.frames.length ≤ e.stepIdx + 1 then e.frames.length - 1
         else e.stepIdx + 1) defFrame)
    = lastSeen none
        (e.frames.take
          ((if e.frames.length ≤ e.stepIdx + 1 then e.frames.length - 1
            else e.stepIdx + 1) + 1))
  by_cases hc : e.frames.length ≤ e.stepIdx + 1
  · rw [if_pos hc]
    have htake : e.frames.take (e.stepIdx + 1) = e.frames :=
      List.take_of_length_le hc
    rw [h, htake]
    have htake2 : e.frames.take (e.frames.length - 1 + 1) = e.frames := by
      cases e.frames with
      | nil => rfl
      | cons f l =>
        have hlen : (f :: l).length - 1 + 1 = (f :: l).length := by
          simp
        rw [hlen, List.take_length]
    rw [htake2]
    exact updSeen_last none e.frames
  · rw [if_neg hc]
    have hlt : e.stepIdx + 1 < e.frames.length := not_le.mp hc
    have hrhs : List.take (e.stepIdx + 1 + 1) e.frames
        = List.take (e.stepIdx + 1) e.frames ++ [e.frames[e.stepIdx + 1]] := by
      rw [List.take_succ, List.getElem?_eq_getElem hlt]
      rfl
    have hgd : e.frames.getD (e.stepIdx + 1) defFrame
        = e.frames[e.stepIdx + 1] := by
      rw [List.getD_eq_getElem?_getD, List.getElem?_eq_getElem hlt]
      rfl
    rw [h, hrhs, hgd, lastSeen_append]
    rfl

theorem seenInv_run (e : EngineState) (as : List Action) (h : SeenInv e) :
    SeenInv (runSteps e as) := by
  induction as generalizing e with
  | nil => exact h
  | cons a tl ih => exact ih _ (seenInv_step e a h)

/-- C5 (amended): the velocity computed by the next `step` from any
reachable engine state (a `reset` followed by any number of `step`
calls) is the per-axis `[-1,1]`-clipped, fps-scaled difference between
the current frame's speaker center and the *most recently seen* speaker
center among all visited frames (including the reset frame) — not the
immediately previous frame's; it is `(0, 0)` exactly when the current
frame lacks a speaker or no visited frame contained one. -/
theorem c5_velocity_lastSeen (frames : List FrameRec) (fps : ℚ)
    (as : List Action) :
    stepVelocity (runSteps (resetEngine frames fps).1 as)
      = specVelocity (runSteps (resetEngine frames fps).1 as) := by
  have h : (runSteps (resetEngine frames fps).1 as).prevSpeaker
      = lastSeen none
          ((runSteps (resetEngine frames fps).1 as).frames.take
            ((runSteps (resetEngine frames fps).1 as).stepIdx + 1)) :=
    seenInv_run _ _ (seenInv_reset frames fps)
  unfold stepVelocity specVelocity
  rw [h]

/-- The three-frame session used in the C5 counterexample: a speaker at
`x = 1/2`, then a frame with no speaker, then a speaker at `x = 3/5`. -/
def velFrames : List FrameRec :=
  [⟨some ⟨1/2, 1/2, 1⟩, none, none⟩, ⟨none, none, none⟩,
   ⟨some ⟨3/5, 1/2, 1⟩, none, none⟩]

/-- C5 counterexample: after `reset` and one zero-action `step` on
`velFrames` (fps 2) the engine sits at frame index 1, whose record has
no speaker; the claim then requires the next step's velocity to be
`(0, 0)`, but the code compares against the speaker last seen at frame 0
and yields `((3/5 - 1/2) * 2, 0) = (1/5, 0)`. -/
theorem c5_velocity_cex :
    (stepEngine (resetEngine velFrames 2).1 ⟨0, 0, 0⟩).state.stepIdx = 1 ∧
    (velFrames.getD 1 defFrame).speaker = none ∧
    stepVelocity (stepEngine (resetEngine velFrames 2).1 ⟨0, 0, 0⟩).state
      = (1/5, 0) := by
  refine ⟨rfl, rfl, ?_⟩
  show (clip ((3/5 - 1/2) * 2) (-1) 1, clip ((1/2 - 1/2) * 2) (-1) 1)
    = ((1/5 : ℚ), (0 : ℚ))
  norm_num [clip, min_def, max_def]

/-- Schema-conformant bounds for a `speaker` sub-record: coordinates in
`[0,1]`, nonnegative depth proxy. -/
def SpeakerInRange (s : SpeakerRec) : Prop :=
  0 ≤ s.x ∧ s.x ≤ 1 ∧ 0 ≤ s.y ∧ s.y ≤ 1 ∧ 0 ≤ s.z

/-- Schema-conformant bounds for a `keypoints` sub-record. -/
def KeypointsInRange (k : KeypointsRec) : Prop :=
  0 ≤ k.head_x ∧ k.head_x ≤ 1 ∧ 0 ≤ k.head_y ∧ k.head_y ≤ 1 ∧
  0 ≤ k.waist_x ∧ k.waist_x ≤ 1 ∧ 0 ≤ k.waist_y ∧ k.waist_y ≤ 1 ∧
  0 ≤ k.pose_confidence ∧ k.pose_confidence ≤ 1

/-- Bounds the engine's crop state satisfies after any step (and after a
reset from a well-formed record). -/
def CropStateInRange (c : CropState) : Prop :=
  0 ≤ c.x ∧ c.x ≤ 1 ∧ 0 ≤ c.y ∧ c.y ≤ 1 ∧ 0 ≤ c.w ∧ c.w ≤ 1 ∧
  0 ≤ c.h ∧ c.h ≤ 1 ∧ 0 ≤ c.zoom

theorem ite_clip01_mem (p : Prop) [Decidable p] (q : ℚ) :
    0 ≤ (if p then clip q 0 1 else 0) ∧ (if p then clip q 0 1 else 0) ≤ 1 := by
  split_ifs
  · exact ⟨le_clip _ _ _ (by norm_num), clip_le _ _ _⟩
  · norm_num

/-- C7 counterexample: the observation elements are *not* individually
clamped to their declared ranges: a frame whose speaker record carries
`x = 2` (finite, so untouched by the NaN/∞ sanitiser) is passed through
verbatim, and element 1 of the observation exceeds its declared high
bound of 1. -/
theorem c7_obs_cex :
    (buildObservation ⟨some ⟨2, 1/2, 1⟩, none, none⟩ ⟨0, 0, 1, 1, 1⟩ 0 0).getD 1 0
      = 2 ∧
    obsHigh.getD 1 0 = 1 ∧
    ¬((buildObservation ⟨some ⟨2, 1/2, 1⟩, none, none⟩ ⟨0, 0, 1, 1, 1⟩ 0 0).getD 1 0
        ≤ obsHigh.getD 1 0) := by
  have h1 : (buildObservation ⟨some ⟨2, 1/2, 1⟩, none, none⟩
      ⟨0, 0, 1, 1, 1⟩ 0 0).getD 1 0 = 2 := rfl
  have h2 : obsHigh.getD 1 0 = (1:ℚ) := rfl
  refine ⟨h1, h2, ?_⟩
  rw [h1, h2]
  norm_num

set_option maxHeartbeats 1000000 in
/-- C7 (amended): the observation builder never introduces NaN/infinity
from finite inputs (in this rational model every value is finite and the
`nan_to_num` call is the identity), but only `has_person`, `sp_z`,
`zoom_norm`, `head_rel_y` and `waist_rel_y` are clamped by construction;
the speaker, keypoint, crop and velocity elements are passed through
unclamped.  Under schema-conformant record fields, a crop state within
the canvas and velocities already in `[-1,1]`, every one of the 18
elements lies within its declared `Box` range. -/
theorem c7_obs_in_declared_range (f : FrameRec) (c : CropState) (vx vy : ℚ)
    (hs : ∀ s, f.speaker = some s → SpeakerInRange s)
    (hk : ∀ k, f.keypoints = some k → KeypointsInRange k)
    (hc : CropStateInRange c)
    (hvx : -1 ≤ vx ∧ vx ≤ 1) (hvy : -1 ≤ vy ∧ vy ≤ 1) :
    ∀ i : Fin 18,
      obsLow.getD i 0 ≤ (buildObservation f c vx vy).getD i 0 ∧
      (buildObservation f c vx vy).getD i 0 ≤ obsHigh.getD i 0 := by
  obtain ⟨hvx0, hvx1⟩ := hvx
  obtain ⟨hvy0, hvy1⟩ := hvy
  obtain ⟨hcx0, hcx1, hcy0, hcy1, hcw0, hcw1, hch0, hch1, hcz⟩ := hc
  have hHP : 0 ≤ (if f.speaker.isSome then (1:ℚ) else 0) ∧
      (if f.speaker.isSome then (1:ℚ) else 0) ≤ 1 := by
    split_ifs <;> norm_num
  have hSX : 0 ≤ (match f.speaker with | some s => s.x | none => 0) ∧
      (match f.speaker with | some s => s.x | none => 0) ≤ 1 := by
    cases hsp : f.speaker with
    | none => norm_num
    | some s => exact ⟨(hs s hsp).1, (hs s hsp).2.1⟩
  have hSY : 0 ≤ (match f.speaker with | some s => s.y | none => 0) ∧
      (match f.speaker with | some s => s.y | none => 0) ≤ 1 := by
    cases hsp : f.speaker with
    | none => norm_num
    | some s => exact ⟨(hs s hsp).2.2.1, (hs s hsp).2.2.2.1⟩
  have hSZ : 0 ≤ (match f.speaker with | some s => min (s.z / 10) 1 | none => 0) ∧
      (match f.speaker with | some s => min (s.z / 10) 1 | none => 0) ≤ 1 := by
    cases hsp : f.speaker with
    | none => norm_num
    | some s =>
      exact ⟨le_min (div_nonneg (hs s hsp).2.2.2.2 (by norm_num)) (by norm_num),
        min_le_right _ _⟩
  have hHX : 0 ≤ (match f.keypoints with | some k => k.head_x | none => 0) ∧
      (match f.keypoints with | some k => k.head_x | none => 0) ≤ 1 := by
    cases hkp : f.keypoints with
    | none => norm_num
    | some k => exact ⟨(hk k hkp).1, (hk k hkp).2.1⟩
  have hHY : 0 ≤ (match f.keypoints with | some k => k.head_y | none => 0) ∧
      (match f.keypoints with | some k => k.head_y | none => 0) ≤ 1 := by
    cases hkp : f.keypoints with
    | none => norm_num
    | some k => exact ⟨(hk k hkp).2.2.1, (hk k hkp).2.2.2.1⟩
  have hWX : 0 ≤ (match f.keypoints with | some k => k.waist_x | none => 0) ∧
      (match f.keypoints with | some k => k.waist_x | none => 0) ≤ 1 := by
    cases hkp : f.keypoints with
    | none => norm_num
    | some k => exact ⟨(hk k hkp).2.2.2.2.1, (hk k hkp).2.2.2.2.2.1⟩
  have hWY : 0 ≤ (match f.keypoints with | some k => k.waist_y | none => 0) ∧
      (match f.keypoints with | some k => k.waist_y | none => 0) ≤ 1 := by
    cases hkp : f.keypoints with
    | none => norm_num
    | some k =>
      exact ⟨(hk k hkp).2.2.2.2.2.2.1, (hk k hkp).2.2.2.2.2.2.2.1⟩
  have hPC : 0 ≤ (match f.keypoints with | some k => k.pose_confidence | none => 0) ∧
      (match f.keypoints with | some k => k.pose_confidence | none => 0) ≤ 1 := by
    cases hkp : f.keypoints with
    | none => norm_num
    | some k =>
      exact ⟨(hk k hkp).2.2.2.2.2.2.2.2.1, (hk k hkp).2.2.2.2.2.2.2.2.2⟩
  have hZN : 0 ≤ min (c.zoom / MAX_ZOOM) 1 ∧ min (c.zoom / MAX_ZOOM) 1 ≤ 1 :=
    ⟨le_min (div_nonneg hcz (by norm_num [MAX_ZOOM])) (by norm_num),
     min_le_right _ _⟩
  intro i
  dsimp only [buildObservation, obsLow, obsHigh]
  fin_cases i <;>
    simp only [List.getD_cons_zero, List.getD_cons_succ] <;>
    first
      | exact hHP
      | exact hSX
      | exact hSY
      | exact hSZ
      | exact hHX
      | exact hHY
      | exact hWX
      | exact hWY
      | exact hPC
      | exact ⟨hcx0, hcx1⟩
      | exact ⟨hcy0, hcy1⟩
      | exact ⟨hcw0, hcw1⟩
      | exact ⟨hch0, hch1⟩
      | exact hZN
      | exact ⟨hvx0, hvx1⟩
      | exact ⟨hvy0, hvy1⟩
      | exact ite_clip01_mem _ _

/-- C7 witness: a fully populated, in-range frame with the full-canvas
crop satisfies every hypothesis, and (sampling element 1) the bounds
hold there. -/
theorem c7_obs_in_declared_range_wit :
    (∀ s, (some ⟨1/2, 1/2, 3⟩ : Option SpeakerRec) = some s → SpeakerInRange s) ∧
    CropStateInRange ⟨0, 0, 1, 1, 1⟩ ∧
    obsLow.getD 1 0 ≤
      (buildObservation ⟨some ⟨1/2, 1/2, 3⟩, some ⟨1/2, 2/3, 1/2, 1/3, 1⟩, none⟩
        ⟨0, 0, 1, 1, 1⟩ 0 0).getD 1 0 := by
  have hsr : ∀ s, (some ⟨1/2, 1/2, 3⟩ : Option SpeakerRec) = some s →
      SpeakerInRange s := by
    intro s h
    cases h
    unfold SpeakerInRange
    norm_num
  have hcr : CropStateInRange ⟨0, 0, 1, 1, 1⟩ := by
    unfold CropStateInRange
    norm_num
  refine ⟨hsr, hcr, ?_⟩
  have hkr : ∀ k, (some ⟨1/2, 2/3, 1/2, 1/3, 1⟩ : Option KeypointsRec) = some k →
      KeypointsInRange k := by
    intro k h
    cases h
    unfold KeypointsInRange
    norm_num
  exact (c7_obs_in_declared_range
    ⟨some ⟨1/2, 1/2, 3⟩, some ⟨1/2, 2/3, 1/2, 1/3, 1⟩, none⟩
    ⟨0, 0, 1, 1, 1⟩ 0 0 hsr hkr hcr (by norm_num) (by norm_num)
    ⟨1, by norm_num⟩).1

end VCam
